import Mathlib

/-!
Verification development for the CNPJ lookup tool (src/app.PY).

Python strings are modelled as lists of characters (PyStr).  The functions
format_cnpj, clean_cnpj, consultar_cnpj_api and extract_data_for_display are
shallow embeddings of the functions of the same names in src/app.PY.  The
HTTP transport of consultar_cnpj_api is modelled as a list of events, one
consumed per requests.get call; JSON values are modelled by the inductive
type Json; Python runtime exceptions raised by the extraction code are
modelled by the Except monad.
-/

/-- Model of a Python string: a finite sequence of characters. -/
abbrev PyStr := List Char

/-- Coercion from a Lean string literal to the Python string model. -/
def pystr (s : String) : PyStr := s.data

/-- Model of re.sub applied with pattern r'\D' and empty replacement:
remove every character that is not a decimal digit (src/app.PY lines 15, 34). -/
def re_sub_nonDigits (s : PyStr) : PyStr := s.filter Char.isDigit

/-- clean_cnpj from src/app.PY lines 32-34: strip formatting, keep only digits. -/
def clean_cnpj (formatted_cnpj : PyStr) : PyStr := re_sub_nonDigits formatted_cnpj

/-- Truncation step of format_cnpj (src/app.PY lines 16-17): if the cleaned
digit sequence is longer than 14 characters, keep the first 14. -/
def truncate14 (c : PyStr) : PyStr := if c.length > 14 then c.take 14 else c

/-- Separator-insertion step of format_cnpj (src/app.PY lines 19-30),
applied to the cleaned and truncated digit sequence.  Python slices
clean[0:2], clean[2:5], clean[5:8], clean[8:12], clean[12:14] become
take/drop combinations. -/
def format_digits (clean : PyStr) : PyStr :=
  let f0 : PyStr := []
  let f1 := if clean.length > 0 then f0 ++ clean.take 2 else f0
  let f2 := if clean.length > 2 then f1 ++ ('.' :: (clean.drop 2).take 3) else f1
  let f3 := if clean.length > 5 then f2 ++ ('.' :: (clean.drop 5).take 3) else f2
  let f4 := if clean.length > 8 then f3 ++ ('/' :: (clean.drop 8).take 4) else f3
  let f5 := if clean.length > 12 then f4 ++ ('-' :: (clean.drop 12).take 2) else f4
  f5

/-- format_cnpj from src/app.PY lines 13-30: strip non-digits, truncate to 14
digits, then insert the separators. -/
def format_cnpj (cnpj_text : PyStr) : PyStr :=
  format_digits (truncate14 (re_sub_nonDigits cnpj_text))

/-- Model of Python str.isdigit restricted to ASCII decimal digits: true
exactly on a non-empty string all of whose characters are digits. -/
def pyIsdigit (s : PyStr) : Bool := !s.isEmpty && s.all Char.isDigit

/-- Modelled from the spec: normalize of the IdentifierCodec, which strips
every non-digit character and truncates a longer-than-14 result to the first
14 digits (spec section 4.1).  Used to compare the spec description with the
code. -/
def spec_normalize (s : PyStr) : PyStr :=
  let d := re_sub_nonDigits s
  if d.length > 14 then d.take 14 else d

/-- Modelled from the spec: the separator placed before the digit at
position i when the formatted rendering is built (spec section 4.1:
separators at positions 2, 5, 8, 12). -/
def sepBefore (i : Nat) : PyStr :=
  if i = 2 ∨ i = 5 then pystr "." else if i = 8 then pystr "/"
  else if i = 12 then pystr "-" else []

/-- Modelled from the spec: format of the IdentifierCodec as described in
spec section 4.1 — every digit is preceded by the separator assigned to its
position, so a separator and all later groups are omitted whenever the digit
sequence is too short to reach them. -/
def spec_format (c : PyStr) : PyStr :=
  (c.enum.map (fun p => sepBefore p.1 ++ [p.2])).flatten

/-- Gate at the top of consultar_cnpj_api (src/app.PY lines 43-45): the
validation step.  Succeeds with the cleaned code exactly when the cleaned
code passes the isdigit and length-14 test. -/
def validate (s : PyStr) : Option PyStr :=
  let c := clean_cnpj s
  if ¬ pyIsdigit c ∨ c.length ≠ 14 then none else some c

/-- Model of a JSON value, the shape of response.json() bodies and of the
error dictionaries built by consultar_cnpj_api. -/
inductive Json where
  | str (s : PyStr)
  | num (n : Int)
  | bool (b : Bool)
  | null
  | obj (fields : List (PyStr × Json))
  | arr (elems : List Json)

/-- Shorthand for the singleton error dictionaries built in
consultar_cnpj_api (src/app.PY lines 45, 58, 60, 62). -/
def errorObj (msg : PyStr) : Json := Json.obj [(pystr "error", Json.str msg)]

/-- One event of the mocked HTTP transport: requests.get either returns a
response with a status code and an already-parsed JSON body, or raises a
requests.exceptions.RequestException rendered as its detail string. -/
inductive HttpEvent where
  | resp (status : Nat) (body : Json)
  | exn (details : PyStr)

/-- Observable outcome of one call to consultar_cnpj_api: the returned JSON
value, the URLs of the GET requests issued in order, the number of
rate-limit warnings shown (st.warning, line 54) and the total seconds slept
(time.sleep(60), line 55). -/
structure LookupResult where
  response : Json
  urls : List PyStr
  warnings : Nat
  waited : Nat

/-- URL built at src/app.PY line 47 for a cleaned code. -/
def request_url (code : PyStr) : PyStr :=
  pystr "https://open.cnpja.com/office/" ++ code

/-- consultar_cnpj_api from src/app.PY lines 38-62, over a mocked transport:
each call to requests.get consumes the next event of the list.  Returns none
only when the recursion exhausts the event list, a situation that has no
counterpart in the source (the real transport always produces a response or
an exception). -/
def consultar_cnpj_api (cnpj : PyStr) (transport : List HttpEvent) : Option LookupResult :=
  if ¬ pyIsdigit (clean_cnpj cnpj) ∨ (clean_cnpj cnpj).length ≠ 14 then
    some ⟨errorObj (pystr "CNPJ inválido. Digite 14 dígitos numéricos."), [], 0, 0⟩
  else
    match transport with
    | [] => none
    | HttpEvent.exn details :: _ =>
      some ⟨errorObj (pystr "Erro de conexão: " ++ details),
        [request_url (clean_cnpj cnpj)], 0, 0⟩
    | HttpEvent.resp status body :: rest =>
      if status = 200 then
        some ⟨body, [request_url (clean_cnpj cnpj)], 0, 0⟩
      else if status = 429 then
        (consultar_cnpj_api cnpj rest).map
          (fun r => ⟨r.response, request_url (clean_cnpj cnpj) :: r.urls,
            r.warnings + 1, r.waited + 60⟩)
      else if status = 404 then
        some ⟨errorObj (pystr "CNPJ " ++ clean_cnpj cnpj ++
          pystr " não encontrado ou inválido na base da API."),
          [request_url (clean_cnpj cnpj)], 0, 0⟩
      else
        some ⟨errorObj (pystr "Erro ao consultar " ++ clean_cnpj cnpj ++
          pystr ": Status " ++ (toString status).data),
          [request_url (clean_cnpj cnpj)], 0, 0⟩

/-- Canonical CNPJ code: exactly 14 characters, all decimal digits
(spec section 3, CanonicalCode invariant). -/
def is_cnpj_canonical (c : PyStr) : Prop :=
  c.length = 14 ∧ ∀ x ∈ c, x.isDigit = true

instance decidable_is_cnpj_canonical (c : PyStr) : Decidable (is_cnpj_canonical c) :=
  decidable_of_iff (c.length = 14 ∧ ∀ x ∈ c, x.isDigit = true) Iff.rfl

/-- Python runtime exceptions that the extraction code can raise. -/
inductive PyError where
  | typeError
  | attributeError
  | keyError

/-- Lookup of a key in a Python dict modelled as an association list
(keys are unique in a dict; the first binding wins). -/
def dictLookup : List (PyStr × Json) → PyStr → Option Json
  | [], _ => none
  | (k, v) :: rest, key => if k = key then some v else dictLookup rest key

/-- Model of Python dict.get(key, default): defined on dicts, raises
AttributeError on every other value. -/
def pyGet (v : Json) (key : PyStr) (dflt : Json) : Except PyError Json :=
  match v with
  | Json.obj fs => Except.ok ((dictLookup fs key).getD dflt)
  | _ => Except.error PyError.attributeError

/-- Model of Python subscription v[key] with a string key: defined on dicts
(KeyError when absent), TypeError on every other value. -/
def pySubscript (v : Json) (key : PyStr) : Except PyError Json :=
  match v with
  | Json.obj fs =>
    match dictLookup fs key with
    | some x => Except.ok x
    | none => Except.error PyError.keyError
  | _ => Except.error PyError.typeError

/-- Model of the Python membership test (key in v) for a string key:
key test on dicts, element equality on lists (a string equals no non-string
value in Python), substring test on strings, TypeError otherwise. -/
def pyContains (v : Json) (key : PyStr) : Except PyError Bool :=
  match v with
  | Json.obj fs => Except.ok (fs.any (fun p => decide (p.1 = key)))
  | Json.arr es =>
    Except.ok (es.any (fun e =>
      match e with
      | Json.str s => decide (s = key)
      | _ => false))
  | Json.str s =>
    Except.ok ((List.range (s.length + 1)).any
      (fun i => decide ((s.drop i).take key.length = key)))
  | _ => Except.error PyError.typeError

/-- Python truthiness of a JSON value: None, False, 0, and empty
strings/dicts/lists are falsy. -/
def pyTruthy : Json → Bool
  | Json.null => false
  | Json.bool b => b
  | Json.num n => decide (n ≠ 0)
  | Json.str s => decide (s ≠ [])
  | Json.obj fs => !fs.isEmpty
  | Json.arr es => !es.isEmpty

/-- Operations such as re.sub, strptime and str.join require their argument
to be a string and raise TypeError otherwise. -/
def asStr : Json → Except PyError PyStr
  | Json.str s => Except.ok s
  | _ => Except.error PyError.typeError

/-- Model of Python repr of a JSON value (containers render their elements
recursively; strings are quoted; escape sequences inside strings are not
modelled, they never arise in the data handled here). -/
def pyReprOf : Json → PyStr
  | Json.str s => '\'' :: (s ++ ['\''])
  | Json.num n => (toString n).data
  | Json.bool b => if b then pystr "True" else pystr "False"
  | Json.null => pystr "None"
  | Json.obj fs =>
    pystr "\x7b" ++
      List.intercalate (pystr ", ")
        (fs.attach.map (fun p => ('\'' :: (p.1.1 ++ ['\''])) ++ pystr ": " ++ pyReprOf p.1.2)) ++
      pystr "\x7d"
  | Json.arr es =>
    pystr "[" ++ List.intercalate (pystr ", ") (es.attach.map (fun e => pyReprOf e.1)) ++ pystr "]"
termination_by v => sizeOf v
decreasing_by
  · obtain ⟨⟨k, val⟩, hmem⟩ := p
    have h := List.sizeOf_lt_of_mem hmem
    simp at h ⊢
    omega
  · obtain ⟨val, hmem⟩ := e
    have h := List.sizeOf_lt_of_mem hmem
    simp at h ⊢
    omega

/-- Model of Python str(v), as used by f-string interpolation: the string
itself for strings, repr for every other value. -/
def pyStrOf (v : Json) : PyStr :=
  match v with
  | Json.str s => s
  | _ => pyReprOf v

/-- Leap-year rule of the proleptic Gregorian calendar used by
datetime.date. -/
def isLeapYear (y : Nat) : Bool := (y % 4 = 0 && y % 100 ≠ 0) || y % 400 = 0

/-- Number of days of month m in year y. -/
def daysInMonth (y m : Nat) : Nat :=
  if m = 2 then (if isLeapYear y then 29 else 28)
  else if m = 4 ∨ m = 6 ∨ m = 9 ∨ m = 11 then 30 else 31

/-- Numeric value of a digit string. -/
def natOfDigits (s : PyStr) : Nat :=
  s.foldl (fun a c => a * 10 + (c.toNat - '0'.toNat)) 0

/-- Model of Python datetime.datetime.strptime(s, '%Y-%m-%d') (a library
function, not part of src/): three dash-separated all-digit groups, year of
at most four digits and at least 1, month 1-12, day valid for the month;
anything else raises ValueError, rendered as none. -/
def strptime_Ymd (s : PyStr) : Option (Nat × Nat × Nat) :=
  match s.splitOn '-' with
  | [ys, ms, ds] =>
    if ys ≠ [] ∧ ys.length ≤ 4 ∧ ys.all Char.isDigit ∧
       ms ≠ [] ∧ ms.length ≤ 2 ∧ ms.all Char.isDigit ∧
       ds ≠ [] ∧ ds.length ≤ 2 ∧ ds.all Char.isDigit then
      let y := natOfDigits ys
      let m := natOfDigits ms
      let d := natOfDigits ds
      if 1 ≤ y ∧ 1 ≤ m ∧ m ≤ 12 ∧ 1 ≤ d ∧ d ≤ daysInMonth y m then
        some (y, m, d)
      else none
    else none
  | _ => none

/-- Decimal digits of n, left-padded with '0' to two characters. -/
def pad2 (n : Nat) : PyStr :=
  if n < 10 then '0' :: (toString n).data else (toString n).data

/-- Model of datetime.strftime('%d/%m/%Y') (library function, not part of
src/): zero-padded day and month, year unpadded. -/
def strftime_dmY : Nat × Nat × Nat → PyStr
  | (y, m, d) => pad2 d ++ pystr "/" ++ pad2 m ++ pystr "/" ++ (toString y).data

/-- Python iteration (for x in v): a list yields its elements, a string its
one-character substrings, a dict its keys; other values raise TypeError. -/
def pyIterElems : Json → Except PyError (List Json)
  | Json.arr es => Except.ok es
  | Json.str s => Except.ok (s.map (fun c => Json.str [c]))
  | Json.obj fs => Except.ok (fs.map (fun p => Json.str p.1))
  | _ => Except.error PyError.typeError

/-- Display mapping built by extract_data_for_display: label/value pairs in
insertion order. -/
abbrev Extracted := List (PyStr × Json)

/-- Conversion of the founded date of src/app.PY lines 83-91: a truthy value
is parsed with strptime (TypeError when it is not a string) and reformatted;
a parse failure (the caught ValueError) and a falsy value give the
placeholder. -/
def founded_display (founded : Json) : Except PyError Json :=
  if pyTruthy founded then do
    let fs ← asStr founded
    match strptime_Ymd fs with
    | some ymd => pure (Json.str (strftime_dmY ymd))
    | none => pure (Json.str (pystr "N/A"))
  else pure (Json.str (pystr "N/A"))

/-- Body of the member loop of src/app.PY lines 102-104: person name of one
member, with the per-level defaults. -/
def member_name (member : Json) : Except PyError Json := do
  let person ← pyGet member (pystr "person") (Json.obj [])
  pyGet person (pystr "name") (Json.str (pystr "N/A"))

/-- Member list rendering of src/app.PY lines 99-107: a truthy members value
is iterated, each person name collected, and the names joined with a comma
(join raises TypeError on a non-string element); a falsy members value gives
the placeholder. -/
def socios_display (members : Json) : Except PyError Json :=
  if pyTruthy members then do
    let names ← (← pyIterElems members).mapM member_name
    let strs ← names.mapM asStr
    pure (Json.str (List.intercalate (pystr ", ") strs))
  else pure (Json.str (pystr "N/A"))

/-- extract_data_for_display from src/app.PY lines 64-109: returns the pair
(extracted, error) of the source, raising modelled Python exceptions through
Except. -/
def extract_data_for_display (response : Json) :
    Except PyError (Option Extracted × Option Json) := do
  let hasError ← pyContains response (pystr "error")
  if hasError then
    let errVal ← pySubscript response (pystr "error")
    return (none, some errVal)
  else
    let data := response
    let company ← pyGet data (pystr "company") (Json.obj [])
    let address_data ← pyGet data (pystr "address") (Json.obj [])
    let status_info ← pyGet data (pystr "status") (Json.obj [])
    let main_activity ← pyGet data (pystr "mainActivity") (Json.obj [])
    let taxId ← pyGet data (pystr "taxId") (Json.str (pystr "N/A"))
    let taxIdStr ← asStr taxId
    let cnpjVal := Json.str (format_cnpj taxIdStr)
    let razao ← pyGet company (pystr "name") (Json.str (pystr "N/A"))
    let fantasia ← pyGet data (pystr "alias") (Json.str (pystr "N/A"))
    let founded ← pyGet data (pystr "founded") Json.null
    let abertura ← founded_display founded
    let situacao ← pyGet status_info (pystr "text") (Json.str (pystr "N/A"))
    let logradouro ← pyGet address_data (pystr "street") (Json.str (pystr "N/A"))
    let numero ← pyGet address_data (pystr "number") (Json.str (pystr "N/A"))
    let cnaeId ← pyGet main_activity (pystr "id") (Json.str (pystr "N/A"))
    let cnaeText ← pyGet main_activity (pystr "text") (Json.str (pystr "N/A"))
    let cnae := Json.str (pyStrOf cnaeId ++ pystr " - " ++ pyStrOf cnaeText)
    let members ← pyGet company (pystr "members") (Json.arr [])
    let socios ← socios_display members
    return (some [
      (pystr "CNPJ", cnpjVal),
      (pystr "Razão Social", razao),
      (pystr "Nome Fantasia", fantasia),
      (pystr "Data de Abertura", abertura),
      (pystr "Situação Cadastral", situacao),
      (pystr "Logradouro", logradouro),
      (pystr "Número", numero),
      (pystr "CNAE Principal", cnae),
      (pystr "Sócios", socios)], none)

/-- Property of a JSON value of being a string. -/
def isStrVal (v : Json) : Prop := ∃ s, v = Json.str s

/-- Property of a JSON value of being an object. -/
def isObjVal (v : Json) : Prop := ∃ fs, v = Json.obj fs

/-- Every binding of key k in the mapping (when one exists) satisfies P. -/
def keyAbsentOr (m : List (PyStr × Json)) (k : PyStr) (P : Json → Prop) : Prop :=
  ∀ v, dictLookup m k = some v → P v

/-- Well-typed person value: an object whose name, when present, is a
string. -/
def personOk (v : Json) : Prop :=
  ∃ pfs, v = Json.obj pfs ∧ keyAbsentOr pfs (pystr "name") isStrVal

/-- Well-typed member value: an object whose person, when present, is
well-typed. -/
def memberOk (v : Json) : Prop :=
  ∃ mfs, v = Json.obj mfs ∧ keyAbsentOr mfs (pystr "person") personOk

/-- Well-typed members value: a list of well-typed members. -/
def membersOk (v : Json) : Prop :=
  ∃ es, v = Json.arr es ∧ ∀ e ∈ es, memberOk e

/-- Well-typed company value: an object whose members, when present, is
well-typed. -/
def companyOk (v : Json) : Prop :=
  ∃ cfs, v = Json.obj cfs ∧ keyAbsentOr cfs (pystr "members") membersOk

/-- Well-typed founded value: None or a string (the only shapes on which the
truthiness test followed by strptime cannot raise). -/
def foundedOk (v : Json) : Prop := v = Json.null ∨ isStrVal v

/-- Well-typedness of a response mapping: every optional field to which the
extraction applies dict or string operations has the operated-on type when
present.  Fields that are only stored (company.name, alias, status.text,
address.street, address.number, mainActivity.id, mainActivity.text) need no
constraint. -/
def extractWellTyped (m : List (PyStr × Json)) : Prop :=
  keyAbsentOr m (pystr "company") companyOk ∧
  keyAbsentOr m (pystr "address") isObjVal ∧
  keyAbsentOr m (pystr "status") isObjVal ∧
  keyAbsentOr m (pystr "mainActivity") isObjVal ∧
  keyAbsentOr m (pystr "taxId") isStrVal ∧
  keyAbsentOr m (pystr "founded") foundedOk

/-! Basic lemmas about cleaning and the validation gate. -/

theorem re_sub_nonDigits_sound (s : PyStr) : ∀ x ∈ re_sub_nonDigits s, x.isDigit = true := by
  intro x hx
  exact (List.mem_filter.mp hx).2

theorem re_sub_nonDigits_of_digits {c : PyStr} (h : ∀ x ∈ c, x.isDigit = true) :
    re_sub_nonDigits c = c :=
  List.filter_eq_self.mpr h

theorem clean_cnpj_canonical {c : PyStr} (hc : is_cnpj_canonical c) : clean_cnpj c = c :=
  re_sub_nonDigits_of_digits hc.2

theorem pyIsdigit_canonical {c : PyStr} (hc : is_cnpj_canonical c) : pyIsdigit c = true := by
  obtain ⟨hl, hd⟩ := hc
  cases c with
  | nil => simp at hl
  | cons a t =>
    simp only [pyIsdigit, List.isEmpty, Bool.not_false, Bool.true_and, List.all_eq_true]
    exact fun x hx => hd x hx

theorem consultar_gate_open {c : PyStr} (hc : is_cnpj_canonical c) :
    ¬ (¬ pyIsdigit (clean_cnpj c) = true ∨ (clean_cnpj c).length ≠ 14) := by
  rw [clean_cnpj_canonical hc]
  push_neg
  exact ⟨by simp [pyIsdigit_canonical hc], hc.1⟩

/-! Step lemmas for consultar_cnpj_api over a canonical code. -/

theorem consultar_invalid {s : PyStr} (h : (clean_cnpj s).length ≠ 14) (t : List HttpEvent) :
    consultar_cnpj_api s t =
      some ⟨errorObj (pystr "CNPJ inválido. Digite 14 dígitos numéricos."), [], 0, 0⟩ := by
  rw [consultar_cnpj_api.eq_def]
  exact if_pos (Or.inr h)

theorem consultar_nil {c : PyStr} (hc : is_cnpj_canonical c) :
    consultar_cnpj_api c [] = none := by
  rw [consultar_cnpj_api, if_neg (consultar_gate_open hc)]

theorem consultar_exn {c : PyStr} (hc : is_cnpj_canonical c) (d : PyStr) (rest : List HttpEvent) :
    consultar_cnpj_api c (HttpEvent.exn d :: rest) =
      some ⟨errorObj (pystr "Erro de conexão: " ++ d), [request_url c], 0, 0⟩ := by
  rw [consultar_cnpj_api, if_neg (consultar_gate_open hc), clean_cnpj_canonical hc]

theorem consultar_200 {c : PyStr} (hc : is_cnpj_canonical c) (b : Json) (rest : List HttpEvent) :
    consultar_cnpj_api c (HttpEvent.resp 200 b :: rest) =
      some ⟨b, [request_url c], 0, 0⟩ := by
  rw [consultar_cnpj_api, if_neg (consultar_gate_open hc), clean_cnpj_canonical hc]
  rfl

theorem consultar_429 {c : PyStr} (hc : is_cnpj_canonical c) (b : Json) (rest : List HttpEvent) :
    consultar_cnpj_api c (HttpEvent.resp 429 b :: rest) =
      (consultar_cnpj_api c rest).map
        (fun r => ⟨r.response, request_url c :: r.urls, r.warnings + 1, r.waited + 60⟩) := by
  rw [consultar_cnpj_api, if_neg (consultar_gate_open hc), clean_cnpj_canonical hc]
  rfl

theorem consultar_404 {c : PyStr} (hc : is_cnpj_canonical c) (b : Json) (rest : List HttpEvent) :
    consultar_cnpj_api c (HttpEvent.resp 404 b :: rest) =
      some ⟨errorObj (pystr "CNPJ " ++ c ++ pystr " não encontrado ou inválido na base da API."),
        [request_url c], 0, 0⟩ := by
  rw [consultar_cnpj_api, if_neg (consultar_gate_open hc), clean_cnpj_canonical hc]
  rfl

theorem consultar_other {c : PyStr} (hc : is_cnpj_canonical c) {st : Nat} (b : Json)
    (rest : List HttpEvent) (h200 : st ≠ 200) (h404 : st ≠ 404) (h429 : st ≠ 429) :
    consultar_cnpj_api c (HttpEvent.resp st b :: rest) =
      some ⟨errorObj (pystr "Erro ao consultar " ++ c ++ pystr ": Status " ++ (toString st).data),
        [request_url c], 0, 0⟩ := by
  rw [consultar_cnpj_api, if_neg (consultar_gate_open hc), clean_cnpj_canonical hc]
  simp only [if_neg h200, if_neg h429, if_neg h404]

/-- C3: on every input whose cleaned digit sequence is not exactly 14 digits,
consultar_cnpj_api returns the InvalidInput failure with the exact message
and issues zero transport invocations (no URL is requested). -/
theorem C3_no_network_call_on_invalid_input (s : PyStr) (t : List HttpEvent)
    (h : (clean_cnpj s).length ≠ 14) :
    consultar_cnpj_api s t =
      some ⟨errorObj (pystr "CNPJ inválido. Digite 14 dígitos numéricos."), [], 0, 0⟩ :=
  consultar_invalid h t

/-- Witness for C3 at the concrete input "123" with a non-empty transport. -/
theorem C3_no_network_call_on_invalid_input_witness :
    (clean_cnpj (pystr "123")).length ≠ 14 ∧
    consultar_cnpj_api (pystr "123") [HttpEvent.resp 200 Json.null] =
      some ⟨errorObj (pystr "CNPJ inválido. Digite 14 dígitos numéricos."), [], 0, 0⟩ :=
  ⟨by decide, C3_no_network_call_on_invalid_input _ _ (by decide)⟩

/-- C6: classification of HTTP statuses over a canonical code: 200 returns
the parsed body, 404 returns the NotFound failure whose message contains the
canonical code, and any status other than 200, 404 and 429 returns the
RemoteError failure carrying the status. -/
theorem C6_status_classification (c : PyStr) (hc : is_cnpj_canonical c) :
    (∀ body, consultar_cnpj_api c [HttpEvent.resp 200 body] =
      some ⟨body, [request_url c], 0, 0⟩) ∧
    (∀ body, consultar_cnpj_api c [HttpEvent.resp 404 body] =
      some ⟨errorObj (pystr "CNPJ " ++ c ++ pystr " não encontrado ou inválido na base da API."),
        [request_url c], 0, 0⟩) ∧
    (∀ status body, status ≠ 200 → status ≠ 404 → status ≠ 429 →
      consultar_cnpj_api c [HttpEvent.resp status body] =
        some ⟨errorObj (pystr "Erro ao consultar " ++ c ++ pystr ": Status " ++
          (toString status).data), [request_url c], 0, 0⟩) :=
  ⟨fun body => consultar_200 hc body [],
   fun body => consultar_404 hc body [],
   fun _ body h200 h404 h429 => consultar_other hc body [] h200 h404 h429⟩

/-- Witness for C6 at the code "00000000000000" with statuses 404, 200
and 500. -/
theorem C6_status_classification_witness :
    consultar_cnpj_api (pystr "00000000000000") [HttpEvent.resp 404 Json.null] =
      some ⟨errorObj (pystr "CNPJ " ++ pystr "00000000000000" ++
        pystr " não encontrado ou inválido na base da API."),
        [request_url (pystr "00000000000000")], 0, 0⟩ ∧
    consultar_cnpj_api (pystr "00000000000000") [HttpEvent.resp 200 (Json.bool true)] =
      some ⟨Json.bool true, [request_url (pystr "00000000000000")], 0, 0⟩ ∧
    consultar_cnpj_api (pystr "00000000000000") [HttpEvent.resp 500 Json.null] =
      some ⟨errorObj (pystr "Erro ao consultar " ++ pystr "00000000000000" ++
        pystr ": Status " ++ (toString (500 : Nat)).data),
        [request_url (pystr "00000000000000")], 0, 0⟩ :=
  ⟨(C6_status_classification _ (by decide)).2.1 Json.null,
   (C6_status_classification _ (by decide)).1 (Json.bool true),
   (C6_status_classification _ (by decide)).2.2 500 Json.null
     (by decide) (by decide) (by decide)⟩

/-- C7: a transport-level exception makes consultar_cnpj_api return the
ConnectionError failure carrying the exception text; exactly one request was
issued, the remaining transport is never consumed (no retry), and the
exception does not escape (the function still returns a value). -/
theorem C7_connection_error_terminal (c : PyStr) (hc : is_cnpj_canonical c)
    (details : PyStr) (rest : List HttpEvent) :
    consultar_cnpj_api c (HttpEvent.exn details :: rest) =
      some ⟨errorObj (pystr "Erro de conexão: " ++ details), [request_url c], 0, 0⟩ :=
  consultar_exn hc details rest

/-- Witness for C7 at a concrete code and exception, with spare transport
events that are not consumed. -/
theorem C7_connection_error_terminal_witness :
    consultar_cnpj_api (pystr "11222333000181")
        [HttpEvent.exn (pystr "timeout"), HttpEvent.resp 200 Json.null] =
      some ⟨errorObj (pystr "Erro de conexão: " ++ pystr "timeout"),
        [request_url (pystr "11222333000181")], 0, 0⟩ :=
  C7_connection_error_terminal _ (by decide) _ _

/-- C2: fixed unbounded 60-second retry on 429.  For every canonical code,
every number n of leading 429 responses and every non-429 final event, the
lookup returns exactly the classification of the final event, after issuing
the same URL n additional times, emitting n rate-limit warnings and sleeping
60 seconds for each of them. -/
theorem C2_rate_limit_retry (c : PyStr) (hc : is_cnpj_canonical c) (n : Nat) (b : Json)
    (e : HttpEvent) (he : ∀ body, e ≠ HttpEvent.resp 429 body) :
    ∃ r : LookupResult,
      consultar_cnpj_api c [e] = some r ∧
      consultar_cnpj_api c (List.replicate n (HttpEvent.resp 429 b) ++ [e]) =
        some ⟨r.response, List.replicate n (request_url c) ++ r.urls,
          n + r.warnings, 60 * n + r.waited⟩ := by
  obtain ⟨r, hr⟩ : ∃ r, consultar_cnpj_api c [e] = some r := by
    cases e with
    | exn d => exact ⟨_, consultar_exn hc d []⟩
    | resp st body =>
      by_cases h200 : st = 200
      · subst h200; exact ⟨_, consultar_200 hc body []⟩
      · by_cases h404 : st = 404
        · subst h404; exact ⟨_, consultar_404 hc body []⟩
        · have h429 : st ≠ 429 := fun h => (he body (by rw [h])).elim
          exact ⟨_, consultar_other hc body [] h200 h404 h429⟩
  refine ⟨r, hr, ?_⟩
  induction n with
  | zero => simpa using hr
  | succ n ih =>
    have hsplit : List.replicate (n + 1) (HttpEvent.resp 429 b) ++ [e] =
        HttpEvent.resp 429 b :: (List.replicate n (HttpEvent.resp 429 b) ++ [e]) := by
      simp [List.replicate_succ]
    rw [hsplit, consultar_429 hc b _, ih]
    simp only [Option.map_some', Option.some.injEq, LookupResult.mk.injEq, List.replicate_succ,
      List.cons_append, true_and]
    omega

/-- Witness for C2: one 429 response followed by a 200 response; the lookup
returns the record of the second response after one warning and one
60-second wait. -/
theorem C2_rate_limit_retry_witness :
    ∃ r : LookupResult,
      consultar_cnpj_api (pystr "11222333000181") [HttpEvent.resp 200 (Json.num 7)] = some r ∧
      consultar_cnpj_api (pystr "11222333000181")
          (List.replicate 1 (HttpEvent.resp 429 Json.null) ++ [HttpEvent.resp 200 (Json.num 7)]) =
        some ⟨r.response, List.replicate 1 (request_url (pystr "11222333000181")) ++ r.urls,
          1 + r.warnings, 60 * 1 + r.waited⟩ :=
  C2_rate_limit_retry (pystr "11222333000181") (by decide) 1 Json.null
    (HttpEvent.resp 200 (Json.num 7))
    (fun body h => by injection h with h1 _; exact absurd h1 (by decide))

/-! Reassembly lemmas: the take/drop chunks of format_digits concatenate
back to a prefix of the digit sequence. -/

theorem take_chunk_5 (c : PyStr) : c.take 2 ++ (c.drop 2).take 3 = c.take 5 := by
  simpa using (List.take_add c 2 3).symm

theorem take_chunk_8 (c : PyStr) :
    c.take 2 ++ ((c.drop 2).take 3 ++ (c.drop 5).take 3) = c.take 8 := by
  calc c.take 2 ++ ((c.drop 2).take 3 ++ (c.drop 5).take 3)
      = (c.take 2 ++ (c.drop 2).take 3) ++ (c.drop 5).take 3 := (List.append_assoc _ _ _).symm
    _ = c.take 5 ++ (c.drop 5).take 3 := by rw [take_chunk_5]
    _ = c.take 8 := by simpa using (List.take_add c 5 3).symm

theorem take_chunk_12 (c : PyStr) :
    c.take 2 ++ ((c.drop 2).take 3 ++ ((c.drop 5).take 3 ++ (c.drop 8).take 4)) = c.take 12 := by
  calc c.take 2 ++ ((c.drop 2).take 3 ++ ((c.drop 5).take 3 ++ (c.drop 8).take 4))
      = (c.take 2 ++ ((c.drop 2).take 3 ++ (c.drop 5).take 3)) ++ (c.drop 8).take 4 := by
        simp [List.append_assoc]
    _ = c.take 8 ++ (c.drop 8).take 4 := by rw [take_chunk_8]
    _ = c.take 12 := by simpa using (List.take_add c 8 4).symm

theorem take_chunk_14 (c : PyStr) :
    c.take 2 ++ ((c.drop 2).take 3 ++ ((c.drop 5).take 3 ++ ((c.drop 8).take 4 ++
      (c.drop 12).take 2))) = c.take 14 := by
  calc c.take 2 ++ ((c.drop 2).take 3 ++ ((c.drop 5).take 3 ++ ((c.drop 8).take 4 ++
        (c.drop 12).take 2)))
      = (c.take 2 ++ ((c.drop 2).take 3 ++ ((c.drop 5).take 3 ++ (c.drop 8).take 4))) ++
        (c.drop 12).take 2 := by simp [List.append_assoc]
    _ = c.take 12 ++ (c.drop 12).take 2 := by rw [take_chunk_12]
    _ = c.take 14 := by simpa using (List.take_add c 12 2).symm

/-- Filtering digits is the identity on a take/drop slice of an all-digit
sequence. -/
theorem filter_isDigit_slice {c : PyStr} (hd : ∀ x ∈ c, x.isDigit = true) (n m : Nat) :
    ((c.drop n).take m).filter Char.isDigit = (c.drop n).take m :=
  List.filter_eq_self.mpr
    (fun a ha => hd a (List.mem_of_mem_drop (List.mem_of_mem_take ha)))

theorem filter_isDigit_take {c : PyStr} (hd : ∀ x ∈ c, x.isDigit = true) (m : Nat) :
    (c.take m).filter Char.isDigit = c.take m :=
  List.filter_eq_self.mpr (fun a ha => hd a (List.mem_of_mem_take ha))

/-- Cleaning the output of format_digits recovers the digit sequence. -/
theorem format_digits_clean (c : PyStr) (hd : ∀ x ∈ c, x.isDigit = true)
    (hl : c.length ≤ 14) : re_sub_nonDigits (format_digits c) = c := by
  have hdot : Char.isDigit '.' = false := rfl
  have hslash : Char.isDigit '/' = false := rfl
  have hdash : Char.isDigit '-' = false := rfl
  simp only [format_digits, re_sub_nonDigits]
  split_ifs <;>
    simp only [List.filter_append, List.filter_cons, hdot, hslash, hdash, List.filter_nil,
      Bool.false_eq_true, if_false, List.nil_append, filter_isDigit_slice hd,
      filter_isDigit_take hd, List.append_assoc] <;>
    first
    | (exfalso; omega)
    | rfl
    | (rw [take_chunk_5]; exact List.take_of_length_le (by omega))
    | (rw [take_chunk_8]; exact List.take_of_length_le (by omega))
    | (rw [take_chunk_12]; exact List.take_of_length_le (by omega))
    | (rw [take_chunk_14]; exact List.take_of_length_le (by omega))
    | exact List.take_of_length_le (by omega)
    | (symm; exact List.length_eq_zero.mp (by omega))

/-- Length bound for the separator-insertion step. -/
theorem format_digits_length (c : PyStr) (hl : c.length ≤ 14) :
    (format_digits c).length ≤ 18 := by
  simp only [format_digits]
  split_ifs <;>
    simp only [List.length_append, List.length_cons, List.length_take, List.length_drop,
      List.length_nil] <;>
    omega

/-- Digit and length facts for the cleaned, truncated sequence used inside
format_cnpj. -/
theorem truncate14_clean_digits (s : PyStr) :
    ∀ x ∈ truncate14 (re_sub_nonDigits s), x.isDigit = true := by
  intro x hx
  unfold truncate14 at hx
  split_ifs at hx with h
  · exact re_sub_nonDigits_sound s x (List.mem_of_mem_take hx)
  · exact re_sub_nonDigits_sound s x hx

theorem truncate14_clean_length (s : PyStr) :
    (truncate14 (re_sub_nonDigits s)).length ≤ 14 := by
  unfold truncate14
  split_ifs with h
  · simp [List.length_take]
  · omega

/-- Cleaning the formatted rendering recovers the normalized digit
sequence. -/
theorem clean_format_eq_spec_normalize (s : PyStr) :
    clean_cnpj (format_cnpj s) = spec_normalize s := by
  have hspec : spec_normalize s = truncate14 (re_sub_nonDigits s) := rfl
  rw [format_cnpj, hspec]
  exact format_digits_clean _ (truncate14_clean_digits s) (truncate14_clean_length s)

/-- C4: for every input string, the formatted rendering is at most 18
characters long, and cleaning it recovers exactly the normalized (stripped
and truncated) digit sequence. -/
theorem C4_normalize_format_roundtrip (s : PyStr) :
    (format_cnpj s).length ≤ 18 ∧ clean_cnpj (format_cnpj s) = spec_normalize s := by
  constructor
  · rw [format_cnpj]
    exact format_digits_length _ (truncate14_clean_length s)
  · exact clean_format_eq_spec_normalize s

/-- consultar_cnpj_api depends on its code argument only through
clean_cnpj. -/
theorem consultar_congr {a b : PyStr} (h : clean_cnpj a = clean_cnpj b) :
    ∀ t, consultar_cnpj_api a t = consultar_cnpj_api b t := by
  intro t
  induction t with
  | nil =>
    rw [consultar_cnpj_api, consultar_cnpj_api, h]
  | cons ev rest ih =>
    cases ev with
    | exn d => rw [consultar_cnpj_api, consultar_cnpj_api, h]
    | resp st body => rw [consultar_cnpj_api, consultar_cnpj_api, h, ih]

/-- Cleaning the formatted rendering of a canonical code gives the code
back. -/
theorem clean_format_canonical {c : PyStr} (hc : is_cnpj_canonical c) :
    clean_cnpj (format_cnpj c) = c := by
  have h := clean_format_eq_spec_normalize c
  rw [h]
  show truncate14 (re_sub_nonDigits c) = c
  rw [re_sub_nonDigits_of_digits hc.2]
  unfold truncate14
  rw [if_neg (by have := hc.1; omega)]

/-- C8: formatting never affects the lookup: over any transport, looking up
the formatted rendering of a canonical code issues the same requests and
returns the same outcome as looking up the code itself, because the function
re-cleans its argument to the canonical digit sequence. -/
theorem C8_format_does_not_affect_lookup (c : PyStr) (hc : is_cnpj_canonical c)
    (t : List HttpEvent) :
    consultar_cnpj_api (format_cnpj c) t = consultar_cnpj_api c t ∧
    clean_cnpj (format_cnpj c) = c := by
  have hclean : clean_cnpj (format_cnpj c) = c := clean_format_canonical hc
  exact ⟨consultar_congr (by rw [hclean, clean_cnpj_canonical hc]) t, hclean⟩

/-- Witness for C8 at a concrete canonical code and a 404 transport. -/
theorem C8_format_does_not_affect_lookup_witness :
    consultar_cnpj_api (format_cnpj (pystr "11222333000181")) [HttpEvent.resp 404 Json.null] =
      consultar_cnpj_api (pystr "11222333000181") [HttpEvent.resp 404 Json.null] ∧
    clean_cnpj (format_cnpj (pystr "11222333000181")) = pystr "11222333000181" :=
  C8_format_does_not_affect_lookup _ (by decide) _

/-- C1, counterexample: an input with fifteen digits normalizes (per the
spec, with truncation) to a 14-digit sequence, yet the gate of
consultar_cnpj_api rejects it, because the gate cleans without
truncating. -/
theorem C1_counterexample :
    (spec_normalize (pystr "112223330001810")).length = 14 ∧
    validate (pystr "112223330001810") = none := by
  constructor
  · decide
  · decide

/-- C1, amended: the gate succeeds, yielding the cleaned digit sequence, if
and only if the digit sequence obtained by stripping non-digits (without
truncation) has length exactly 14; the two concrete examples of the claim
hold as stated. -/
theorem C1_validate_iff_clean_length (s : PyStr) :
    (validate s = some (clean_cnpj s) ↔ (clean_cnpj s).length = 14) ∧
    (validate s = none ↔ (clean_cnpj s).length ≠ 14) ∧
    validate (pystr "11.222.333/0001-81") = some (pystr "11222333000181") ∧
    validate (pystr "123") = none := by
  have hdig : pyIsdigit (clean_cnpj s) = true ∨ (clean_cnpj s).length = 0 := by
    unfold clean_cnpj
    cases h : re_sub_nonDigits s with
    | nil => simp
    | cons a t =>
      left
      simp only [pyIsdigit, List.isEmpty, Bool.not_false, Bool.true_and, List.all_eq_true]
      intro x hx
      exact re_sub_nonDigits_sound s x (by rw [h]; exact hx)
  refine ⟨?_, ?_, by decide, by decide⟩
  · unfold validate
    constructor
    · intro h
      by_contra hne
      rw [if_pos (Or.inr hne)] at h
      exact Option.noConfusion h
    · intro h
      rw [if_neg ?_]
      push_neg
      refine ⟨?_, h⟩
      rcases hdig with hd | h0
      · simp [hd]
      · omega
  · unfold validate
    constructor
    · intro h
      intro hlen
      rw [if_neg ?_] at h
      · exact Option.noConfusion h
      · push_neg
        refine ⟨?_, hlen⟩
        rcases hdig with hd | h0
        · simp [hd]
        · omega
    · intro h
      rw [if_pos (Or.inr h)]

/-- format_cnpj agrees with the positional description of the spec on every
digit sequence of length at most 14. -/
theorem format_cnpj_eq_spec_format (c : PyStr) (hd : ∀ x ∈ c, x.isDigit = true)
    (hl : c.length ≤ 14) : format_cnpj c = spec_format c := by
  have hf : re_sub_nonDigits c = c := re_sub_nonDigits_of_digits hd
  clear hd
  rcases c with _ | ⟨a1, _ | ⟨a2, _ | ⟨a3, _ | ⟨a4, _ | ⟨a5, _ | ⟨a6, _ | ⟨a7, _ | ⟨a8, _ |
    ⟨a9, _ | ⟨a10, _ | ⟨a11, _ | ⟨a12, _ | ⟨a13, _ | ⟨a14, _ | ⟨a15, rest⟩⟩⟩⟩⟩⟩⟩⟩⟩⟩⟩⟩⟩⟩⟩
  all_goals first
  | rfl
  | (rw [format_cnpj, hf]; rfl)
  | (exfalso; simp only [List.length_cons] at hl; omega)

/-- C5: the separators '.', '.', '/', '-' are placed exactly after the 2nd,
5th, 8th and 12th digits (a separator and all later groups being omitted
when the digit sequence is too short to reach them), and the three concrete
examples of the spec hold. -/
theorem C5_separator_positions :
    (∀ c : PyStr, (∀ x ∈ c, x.isDigit = true) → c.length ≤ 14 →
      format_cnpj c = spec_format c) ∧
    format_cnpj (pystr "11222333000181") = pystr "11.222.333/0001-81" ∧
    format_cnpj (pystr "112") = pystr "11.2" ∧
    format_cnpj (pystr "") = pystr "" :=
  ⟨format_cnpj_eq_spec_format, by decide, by decide, rfl⟩

/-- Witness for C5 at the concrete digit sequence of the spec example. -/
theorem C5_separator_positions_witness :
    format_cnpj (pystr "11222333000181") = spec_format (pystr "11222333000181") :=
  C5_separator_positions.1 _ (by decide) (by decide)

/-! Lemmas about dict membership and the extraction. -/

theorem dictLookup_any_eq_true {m : List (PyStr × Json)} {k : PyStr} {v : Json}
    (h : dictLookup m k = some v) : m.any (fun p => decide (p.1 = k)) = true := by
  induction m with
  | nil => simp [dictLookup] at h
  | cons p rest ih =>
    obtain ⟨pk, pv⟩ := p
    simp only [dictLookup] at h
    by_cases hk : pk = k
    · simp [List.any_cons, hk]
    · rw [if_neg hk] at h
      simp [List.any_cons, hk, ih h]

theorem dictLookup_none_any_eq_false {m : List (PyStr × Json)} {k : PyStr}
    (h : dictLookup m k = none) : m.any (fun p => decide (p.1 = k)) = false := by
  induction m with
  | nil => simp
  | cons p rest ih =>
    obtain ⟨pk, pv⟩ := p
    simp only [dictLookup] at h
    by_cases hk : pk = k
    · rw [if_pos hk] at h
      exact Option.noConfusion h
    · rw [if_neg hk] at h
      simp [List.any_cons, hk, ih h]

/-- C10: a mapping that contains the key "error" is treated as a failure by
the extraction, whatever the rest of the mapping holds: the result is
(None, the error value), never a display record. -/
theorem C10_error_key_discriminates (m : List (PyStr × Json)) (v : Json)
    (h : dictLookup m (pystr "error") = some v) :
    extract_data_for_display (Json.obj m) = Except.ok (none, some v) := by
  have h1 : pyContains (Json.obj m) (pystr "error") = Except.ok true := by
    simp [pyContains, dictLookup_any_eq_true h]
  have h2 : pySubscript (Json.obj m) (pystr "error") = Except.ok v := by
    simp [pySubscript, h]
  unfold extract_data_for_display
  rw [h1, h2]
  rfl

/-- Witness for C10 on a one-field mapping holding only an error value. -/
theorem C10_error_key_discriminates_witness :
    extract_data_for_display (Json.obj [(pystr "error", Json.str (pystr "boom"))]) =
      Except.ok (none, some (Json.str (pystr "boom"))) :=
  C10_error_key_discriminates _ _ rfl

/-! Helpers for the extraction under well-typed input. -/

theorem getD_obj_cases {m : List (PyStr × Json)} {k : PyStr}
    (h : keyAbsentOr m k isObjVal) :
    ∃ fs, (dictLookup m k).getD (Json.obj []) = Json.obj fs ∧
      ((dictLookup m k = none ∧ fs = []) ∨ dictLookup m k = some (Json.obj fs)) := by
  cases hv : dictLookup m k with
  | none => exact ⟨[], rfl, Or.inl ⟨rfl, rfl⟩⟩
  | some v =>
    obtain ⟨fs, rfl⟩ := h v hv
    exact ⟨fs, rfl, Or.inr rfl⟩

theorem getD_str_cases {m : List (PyStr × Json)} {k : PyStr} {d : PyStr}
    (h : keyAbsentOr m k isStrVal) :
    ∃ s, (dictLookup m k).getD (Json.str d) = Json.str s ∧
      ((dictLookup m k = none ∧ s = d) ∨ dictLookup m k = some (Json.str s)) := by
  cases hv : dictLookup m k with
  | none => exact ⟨d, rfl, Or.inl ⟨rfl, rfl⟩⟩
  | some v =>
    obtain ⟨s, rfl⟩ := h v hv
    exact ⟨s, rfl, Or.inr rfl⟩

theorem getD_company_cases {m : List (PyStr × Json)}
    (h : keyAbsentOr m (pystr "company") companyOk) :
    ∃ cfs, (dictLookup m (pystr "company")).getD (Json.obj []) = Json.obj cfs ∧
      keyAbsentOr cfs (pystr "members") membersOk ∧
      ((dictLookup m (pystr "company") = none ∧ cfs = []) ∨
        dictLookup m (pystr "company") = some (Json.obj cfs)) := by
  cases hv : dictLookup m (pystr "company") with
  | none =>
    exact ⟨[], rfl, fun v hv' => Option.noConfusion hv', Or.inl ⟨rfl, rfl⟩⟩
  | some v =>
    obtain ⟨cfs, rfl, hm⟩ := h v hv
    exact ⟨cfs, rfl, hm, Or.inr rfl⟩

theorem getD_members_cases {cfs : List (PyStr × Json)}
    (h : keyAbsentOr cfs (pystr "members") membersOk) :
    ∃ es, (dictLookup cfs (pystr "members")).getD (Json.arr []) = Json.arr es ∧
      (∀ e ∈ es, memberOk e) ∧
      ((dictLookup cfs (pystr "members") = none ∧ es = []) ∨
        dictLookup cfs (pystr "members") = some (Json.arr es)) := by
  cases hv : dictLookup cfs (pystr "members") with
  | none => exact ⟨[], rfl, fun e he => absurd he (List.not_mem_nil e), Or.inl ⟨rfl, rfl⟩⟩
  | some v =>
    obtain ⟨es, rfl, hes⟩ := h v hv
    exact ⟨es, rfl, hes, Or.inr rfl⟩

theorem getD_person_cases {mfs : List (PyStr × Json)}
    (h : keyAbsentOr mfs (pystr "person") personOk) :
    ∃ pfs, (dictLookup mfs (pystr "person")).getD (Json.obj []) = Json.obj pfs ∧
      keyAbsentOr pfs (pystr "name") isStrVal := by
  cases hv : dictLookup mfs (pystr "person") with
  | none => exact ⟨[], rfl, fun v hv' => Option.noConfusion hv'⟩
  | some v =>
    obtain ⟨pfs, rfl, hn⟩ := h v hv
    exact ⟨pfs, rfl, hn⟩

theorem getD_founded (m : List (PyStr × Json))
    (h : keyAbsentOr m (pystr "founded") foundedOk) :
    foundedOk ((dictLookup m (pystr "founded")).getD Json.null) := by
  cases hv : dictLookup m (pystr "founded") with
  | none => exact Or.inl rfl
  | some v => exact h v hv

/-- founded_display cannot raise on a well-typed value and yields the
placeholder on None. -/
theorem founded_display_ok {v : Json} (hv : foundedOk v) :
    ∃ av, founded_display v = Except.ok av ∧
      (v = Json.null → av = Json.str (pystr "N/A")) := by
  rcases hv with rfl | ⟨s, rfl⟩
  · exact ⟨Json.str (pystr "N/A"), rfl, fun _ => rfl⟩
  · by_cases hs : s = []
    · subst hs
      exact ⟨Json.str (pystr "N/A"), rfl, fun h => Json.noConfusion h⟩
    · have ht : pyTruthy (Json.str s) = true := by simp [pyTruthy, hs]
      cases hp : strptime_Ymd s with
      | some ymd =>
        refine ⟨Json.str (strftime_dmY ymd), ?_, fun h => Json.noConfusion h⟩
        unfold founded_display
        rw [if_pos ht]
        show (asStr (Json.str s)) >>= _ = _
        rw [show asStr (Json.str s) = Except.ok s from rfl]
        show (match strptime_Ymd s with
          | some ymd => pure (Json.str (strftime_dmY ymd))
          | none => pure (Json.str (pystr "N/A"))) = _
        rw [hp]
        rfl
      | none =>
        refine ⟨Json.str (pystr "N/A"), ?_, fun h => Json.noConfusion h⟩
        unfold founded_display
        rw [if_pos ht]
        show (asStr (Json.str s)) >>= _ = _
        rw [show asStr (Json.str s) = Except.ok s from rfl]
        show (match strptime_Ymd s with
          | some ymd => pure (Json.str (strftime_dmY ymd))
          | none => pure (Json.str (pystr "N/A"))) = _
        rw [hp]
        rfl

/-- member_name cannot raise on a well-typed member and yields a string. -/
theorem member_name_ok {e : Json} (h : memberOk e) :
    ∃ nm : PyStr, member_name e = Except.ok (Json.str nm) := by
  obtain ⟨mfs, rfl, hperson⟩ := h
  obtain ⟨pfs, hpfs, hname⟩ := getD_person_cases hperson
  obtain ⟨nm, hnm, _⟩ := getD_str_cases (d := pystr "N/A") hname
  refine ⟨nm, ?_⟩
  unfold member_name
  show (pyGet (Json.obj mfs) (pystr "person") (Json.obj [])) >>= _ = _
  rw [show pyGet (Json.obj mfs) (pystr "person") (Json.obj []) =
    Except.ok ((dictLookup mfs (pystr "person")).getD (Json.obj [])) from rfl, hpfs]
  show pyGet (Json.obj pfs) (pystr "name") (Json.str (pystr "N/A")) = _
  rw [show pyGet (Json.obj pfs) (pystr "name") (Json.str (pystr "N/A")) =
    Except.ok ((dictLookup pfs (pystr "name")).getD (Json.str (pystr "N/A"))) from rfl, hnm]

/-- Mapping member_name over well-typed members yields a list of strings. -/
theorem mapM_member_name {es : List Json} (h : ∀ e ∈ es, memberOk e) :
    ∃ strs : List PyStr, es.mapM member_name = Except.ok (strs.map Json.str) := by
  induction es with
  | nil => exact ⟨[], rfl⟩
  | cons e rest ih =>
    obtain ⟨strs, hstrs⟩ := ih (fun x hx => h x (List.mem_cons_of_mem _ hx))
    obtain ⟨nm, hnm⟩ := member_name_ok (h e (List.mem_cons_self _ _))
    refine ⟨nm :: strs, ?_⟩
    rw [List.mapM_cons, hnm, hstrs]
    rfl

/-- Mapping asStr over a list of strings succeeds with the underlying
strings. -/
theorem mapM_asStr (strs : List PyStr) :
    (strs.map Json.str).mapM asStr = Except.ok strs := by
  induction strs with
  | nil => rfl
  | cons s rest ih =>
    rw [List.map_cons, List.mapM_cons, ih]
    rfl

/-- socios_display cannot raise on a well-typed members value and yields the
placeholder on an empty list. -/
theorem socios_display_ok {es : List Json} (hes : ∀ e ∈ es, memberOk e) :
    ∃ sv, socios_display (Json.arr es) = Except.ok sv ∧
      (es = [] → sv = Json.str (pystr "N/A")) := by
  cases es with
  | nil => exact ⟨Json.str (pystr "N/A"), rfl, fun _ => rfl⟩
  | cons e rest =>
    obtain ⟨strs, hstrs⟩ := mapM_member_name hes
    refine ⟨Json.str (List.intercalate (pystr ", ") strs), ?_,
      fun hc => List.noConfusion hc⟩
    unfold socios_display
    rw [if_pos (show pyTruthy (Json.arr (e :: rest)) = true from rfl)]
    show (pyIterElems (Json.arr (e :: rest))) >>= _ = _
    rw [show pyIterElems (Json.arr (e :: rest)) = Except.ok (e :: rest) from rfl]
    show ((e :: rest).mapM member_name) >>= _ = _
    rw [hstrs]
    show ((strs.map Json.str).mapM asStr) >>= _ = _
    rw [mapM_asStr]
    rfl

theorem except_ok_bind {α β : Type} (a : α) (f : α → Except PyError β) :
    Except.ok a >>= f = f a := rfl

theorem pyGet_obj (fs : List (PyStr × Json)) (k : PyStr) (d : Json) :
    pyGet (Json.obj fs) k d = Except.ok ((dictLookup fs k).getD d) := rfl

theorem asStr_str (s : PyStr) : asStr (Json.str s) = Except.ok s := rfl

theorem except_pure {α : Type} (a : α) :
    (pure a : Except PyError α) = Except.ok a := rfl

/-- C9, amended: on every mapping without the key "error" whose present
optional fields are well-typed, the extraction returns a display record and
no error, and every display field whose source key is absent is rendered as
the placeholder "N/A" — except the CNPJ field, which is rendered as the
empty string (format_cnpj strips the characters of the "N/A" default), and
the CNAE field, which combines the two placeholders as "N/A - N/A". -/
theorem C9_missing_fields_degrade (m : List (PyStr × Json))
    (hnoerr : dictLookup m (pystr "error") = none)
    (hwt : extractWellTyped m) :
    ∃ F : Extracted,
      extract_data_for_display (Json.obj m) = Except.ok (some F, none) ∧
      (dictLookup m (pystr "taxId") = none →
        dictLookup F (pystr "CNPJ") = some (Json.str [])) ∧
      ((∀ fs, dictLookup m (pystr "company") = some (Json.obj fs) →
          dictLookup fs (pystr "name") = none) →
        dictLookup F (pystr "Razão Social") = some (Json.str (pystr "N/A"))) ∧
      (dictLookup m (pystr "alias") = none →
        dictLookup F (pystr "Nome Fantasia") = some (Json.str (pystr "N/A"))) ∧
      (dictLookup m (pystr "founded") = none →
        dictLookup F (pystr "Data de Abertura") = some (Json.str (pystr "N/A"))) ∧
      ((∀ fs, dictLookup m (pystr "status") = some (Json.obj fs) →
          dictLookup fs (pystr "text") = none) →
        dictLookup F (pystr "Situação Cadastral") = some (Json.str (pystr "N/A"))) ∧
      ((∀ fs, dictLookup m (pystr "address") = some (Json.obj fs) →
          dictLookup fs (pystr "street") = none) →
        dictLookup F (pystr "Logradouro") = some (Json.str (pystr "N/A"))) ∧
      ((∀ fs, dictLookup m (pystr "address") = some (Json.obj fs) →
          dictLookup fs (pystr "number") = none) →
        dictLookup F (pystr "Número") = some (Json.str (pystr "N/A"))) ∧
      ((∀ fs, dictLookup m (pystr "mainActivity") = some (Json.obj fs) →
          dictLookup fs (pystr "id") = none ∧ dictLookup fs (pystr "text") = none) →
        dictLookup F (pystr "CNAE Principal") = some (Json.str (pystr "N/A - N/A"))) ∧
      ((∀ fs, dictLookup m (pystr "company") = some (Json.obj fs) →
          dictLookup fs (pystr "members") = none) →
        dictLookup F (pystr "Sócios") = some (Json.str (pystr "N/A"))) := by
  obtain ⟨hcomp, haddr, hstat, hmain, htax, hfound⟩ := hwt
  obtain ⟨cfs, hcfs, hcmem, hccase⟩ := getD_company_cases hcomp
  obtain ⟨afs, hafs, hacase⟩ := getD_obj_cases haddr
  obtain ⟨sfs, hsfs, hscase⟩ := getD_obj_cases hstat
  obtain ⟨mafs, hmafs, hmacase⟩ := getD_obj_cases hmain
  obtain ⟨tax, htaxv, htaxcase⟩ := getD_str_cases (d := pystr "N/A") htax
  obtain ⟨av, hav, havnull⟩ := founded_display_ok (getD_founded m hfound)
  obtain ⟨es, hes, hesok, hescase⟩ := getD_members_cases hcmem
  obtain ⟨sv, hsv, hsvnil⟩ := socios_display_ok hesok
  have h0 : pyContains (Json.obj m) (pystr "error") = Except.ok false := by
    simp [pyContains, dictLookup_none_any_eq_false hnoerr]
  refine ⟨[
      (pystr "CNPJ", Json.str (format_cnpj tax)),
      (pystr "Razão Social", (dictLookup cfs (pystr "name")).getD (Json.str (pystr "N/A"))),
      (pystr "Nome Fantasia", (dictLookup m (pystr "alias")).getD (Json.str (pystr "N/A"))),
      (pystr "Data de Abertura", av),
      (pystr "Situação Cadastral", (dictLookup sfs (pystr "text")).getD (Json.str (pystr "N/A"))),
      (pystr "Logradouro", (dictLookup afs (pystr "street")).getD (Json.str (pystr "N/A"))),
      (pystr "Número", (dictLookup afs (pystr "number")).getD (Json.str (pystr "N/A"))),
      (pystr "CNAE Principal", Json.str
        (pyStrOf ((dictLookup mafs (pystr "id")).getD (Json.str (pystr "N/A"))) ++
          pystr " - " ++
          pyStrOf ((dictLookup mafs (pystr "text")).getD (Json.str (pystr "N/A"))))),
      (pystr "Sócios", sv)],
    ?_, ?_, ?_, ?_, ?_, ?_, ?_, ?_, ?_, ?_⟩
  · rw [extract_data_for_display, h0, except_ok_bind]
    rw [if_neg Bool.false_ne_true]
    simp only [pyGet_obj, except_ok_bind, hcfs, hafs, hsfs, hmafs, htaxv, asStr_str,
      hav, hes, hsv, except_pure]
  · intro habs
    rcases htaxcase with ⟨_, rfl⟩ | hsome
    · rfl
    · rw [habs] at hsome
      exact Option.noConfusion hsome
  · intro h
    rcases hccase with ⟨_, rfl⟩ | hsome
    · rfl
    · rw [h cfs hsome]
      rfl
  · intro habs
    rw [habs]
    rfl
  · intro habs
    have hfnull : (dictLookup m (pystr "founded")).getD Json.null = Json.null := by
      rw [habs]
      rfl
    rw [havnull hfnull]
    rfl
  · intro h
    rcases hscase with ⟨_, rfl⟩ | hsome
    · rfl
    · rw [h sfs hsome]
      rfl
  · intro h
    rcases hacase with ⟨_, rfl⟩ | hsome
    · rfl
    · rw [h afs hsome]
      rfl
  · intro h
    rcases hacase with ⟨_, rfl⟩ | hsome
    · rfl
    · rw [(h afs hsome)]
      rfl
  · intro h
    rcases hmacase with ⟨_, rfl⟩ | hsome
    · rfl
    · obtain ⟨hid, htext⟩ := h mafs hsome
      rw [hid, htext]
      rfl
  · intro h
    rcases hccase with ⟨_, rfl⟩ | hsome
    · rcases hescase with ⟨_, rfl⟩ | habs2
      · rw [hsvnil rfl]
        rfl
      · exact Option.noConfusion habs2
    · have hn := h cfs hsome
      rcases hescase with ⟨_, rfl⟩ | habs2
      · rw [hsvnil rfl]
        rfl
      · rw [hn] at habs2
        exact Option.noConfusion habs2

/-- C9, counterexample: on the empty mapping (no "error" key, every source
key absent) the CNPJ display field is the empty string, not the placeholder
"N/A"; and a present but non-object company value makes the extraction raise
AttributeError instead of degrading. -/
theorem C9_counterexample :
    extract_data_for_display (Json.obj []) =
      Except.ok (some [
        (pystr "CNPJ", Json.str []),
        (pystr "Razão Social", Json.str (pystr "N/A")),
        (pystr "Nome Fantasia", Json.str (pystr "N/A")),
        (pystr "Data de Abertura", Json.str (pystr "N/A")),
        (pystr "Situação Cadastral", Json.str (pystr "N/A")),
        (pystr "Logradouro", Json.str (pystr "N/A")),
        (pystr "Número", Json.str (pystr "N/A")),
        (pystr "CNAE Principal", Json.str (pystr "N/A - N/A")),
        (pystr "Sócios", Json.str (pystr "N/A"))], none) ∧
    Json.str [] ≠ Json.str (pystr "N/A") ∧
    extract_data_for_display (Json.obj [(pystr "company", Json.num 5)]) =
      Except.error PyError.attributeError := by
  refine ⟨rfl, ?_, rfl⟩
  intro h
  injection h with h'
  exact absurd h' (by decide)

/-- Witness for C9 at the empty mapping: every hypothesis of the amended
claim holds vacuously and every conjunct applies. -/
theorem C9_missing_fields_degrade_witness :
    ∃ F : Extracted,
      extract_data_for_display (Json.obj []) = Except.ok (some F, none) ∧
      (dictLookup ([] : Extracted) (pystr "taxId") = none →
        dictLookup F (pystr "CNPJ") = some (Json.str [])) ∧
      ((∀ fs, dictLookup ([] : Extracted) (pystr "company") = some (Json.obj fs) →
          dictLookup fs (pystr "name") = none) →
        dictLookup F (pystr "Razão Social") = some (Json.str (pystr "N/A"))) ∧
      (dictLookup ([] : Extracted) (pystr "alias") = none →
        dictLookup F (pystr "Nome Fantasia") = some (Json.str (pystr "N/A"))) ∧
      (dictLookup ([] : Extracted) (pystr "founded") = none →
        dictLookup F (pystr "Data de Abertura") = some (Json.str (pystr "N/A"))) ∧
      ((∀ fs, dictLookup ([] : Extracted) (pystr "status") = some (Json.obj fs) →
          dictLookup fs (pystr "text") = none) →
        dictLookup F (pystr "Situação Cadastral") = some (Json.str (pystr "N/A"))) ∧
      ((∀ fs, dictLookup ([] : Extracted) (pystr "address") = some (Json.obj fs) →
          dictLookup fs (pystr "street") = none) →
        dictLookup F (pystr "Logradouro") = some (Json.str (pystr "N/A"))) ∧
      ((∀ fs, dictLookup ([] : Extracted) (pystr "address") = some (Json.obj fs) →
          dictLookup fs (pystr "number") = none) →
        dictLookup F (pystr "Número") = some (Json.str (pystr "N/A"))) ∧
      ((∀ fs, dictLookup ([] : Extracted) (pystr "mainActivity") = some (Json.obj fs) →
          dictLookup fs (pystr "id") = none ∧ dictLookup fs (pystr "text") = none) →
        dictLookup F (pystr "CNAE Principal") = some (Json.str (pystr "N/A - N/A"))) ∧
      ((∀ fs, dictLookup ([] : Extracted) (pystr "company") = some (Json.obj fs) →
          dictLookup fs (pystr "members") = none) →
        dictLookup F (pystr "Sócios") = some (Json.str (pystr "N/A"))) :=
  C9_missing_fields_degrade [] rfl
    ⟨fun _ h => Option.noConfusion h, fun _ h => Option.noConfusion h,
     fun _ h => Option.noConfusion h, fun _ h => Option.noConfusion h,
     fun _ h => Option.noConfusion h, fun _ h => Option.noConfusion h⟩
